import Mathlib

/-!
Verification of the Horus media bridge servers (Samsonboadi/Horus2).

The repository consists of HTTP bridge servers (`Scripts/horus_bridge_server.py`
and `Scrpts/horus_bridge_server.py`) that glue a PostgreSQL recordings/frames
catalog and the external Horus media SDK to a REST API.  This file gives a
shallow embedding of the pure decision logic of those servers and proves or
refutes the frozen specification claims about them.

External collaborators (psycopg2, the Horus SDK, PIL) are modelled as oracles:
functions supplied as parameters whose outcome the embedded code branches on,
exactly where the Python code performs a call into the external library.
-/

namespace Horus

/-- A frame row of the catalog: ordinal index within its recording and an
optional timestamp (`none` models a SQL NULL / unset timestamp).  Timestamps
are modelled as integers (e.g. seconds since an epoch); the Python code only
compares absolute differences of timestamps, which this preserves. -/
structure Frame where
  idx : Nat
  timestamp : Option Int
deriving Repr, DecidableEq

/-- Absolute time difference between a frame and the target, when the frame
has a timestamp: `abs(frame.timestamp - target_time)` in
`HorusMediaBridge.get_image_by_timestamp` (Scrpts/horus_bridge_server.py:243). -/
def frameDiff (target : Int) (f : Frame) : Option Nat :=
  f.timestamp.map (fun ts => (ts - target).natAbs)

/-- The selection loop of `HorusMediaBridge.get_image_by_timestamp`
(Scrpts/horus_bridge_server.py:240-246): iterate over the frames, skipping
frames whose timestamp is unset, keeping `(min_diff, selected_frame)` as the
accumulator; a frame replaces the accumulator only when its difference is
strictly smaller (`diff < min_diff`). -/
def selectNearestAux (target : Int) : List Frame → Option (Nat × Frame) → Option (Nat × Frame)
  | [], acc => acc
  | f :: fs, acc =>
    match f.timestamp with
    | none => selectNearestAux target fs acc
    | some ts =>
      let d := (ts - target).natAbs
      match acc with
      | none => selectNearestAux target fs (some (d, f))
      | some (dm, fm) =>
        if d < dm then selectNearestAux target fs (some (d, f))
        else selectNearestAux target fs (some (dm, fm))

/-- Nearest-timestamp selection: the `selected_frame` left by the scan loop of
`get_image_by_timestamp`, `none` when no frame had a usable timestamp (the
code then raises "No frame found near timestamp"). -/
def selectNearest (target : Int) (frames : List Frame) : Option Frame :=
  (selectNearestAux target frames none).map Prod.snd

/-- Specification predicate: `f` is a candidate (has a timestamp) whose
absolute difference `d` to the target is minimal among all candidates, and
every candidate placed before `f` in scan order has a strictly larger
difference (so ties resolve to the candidate encountered first). -/
def NearestFirst (target : Int) (frames : List Frame) (f : Frame) (d : Nat) : Prop :=
  frameDiff target f = some d ∧
  (∀ g ∈ frames, ∀ d', frameDiff target g = some d' → d ≤ d') ∧
  ∃ pre post, frames = pre ++ f :: post ∧
    (∀ g ∈ pre, ∀ d', frameDiff target g = some d' → d < d')

/-- An entry of the JSON image response assembled by the servers:
`{"Index": i, "Data": <base64>, "Format": "image/jpeg", "Timestamp": ...}`. -/
structure ImageResult where
  idx : Nat
  data : String
  format : String
  timestamp : Option Int
deriving Repr, DecidableEq

/-- The JSON envelope of the `/images` endpoint: `{"Success": true, "Data",
"Message"}` or `{"Success": false, "Error"}` with an HTTP status code. -/
inductive ImagesResponse where
  | success (data : List ImageResult) (message : String)
  | failure (error : String) (statusCode : Nat)
deriving Repr, DecidableEq

/-- Windowed frame selection: `list(itertools.islice(frame_query, count))`
applied to the index-ordered query result
(Scripts/horus_bridge_server.py:1112-1113, Scrpts/horus_bridge_server.py:182-183).
The input list stands for the rows returned by
`Frame.query(..., order_by="index")`. -/
def selectWindow (frames : List Frame) (count : Nat) : List Frame :=
  frames.take count

/-- The per-frame processing loop (`for i, frame in enumerate(...)`): a frame
whose processing raises is skipped (`except ... continue`), all successful
frames are appended in order.  `fetch i f` abstracts the SDK request, image
normalization and base64 encoding for frame `f` at loop position `i`
(`none` models a raised exception anywhere inside the loop body). -/
def processFrames (fetch : Nat → Frame → Option ImageResult) (frames : List Frame) : List ImageResult :=
  frames.enum.filterMap (fun p => fetch p.1 p.2)

/-- Message of the empty windowed response (Scripts/horus_bridge_server.py:1122). -/
def msgNoFrames : String := "No frames found for this recording"

/-- Message of the successful `/images` response, reporting the number of
frames actually produced (Scripts/horus_bridge_server.py:1250). -/
def retrievedMsg (n : Nat) : String := "Retrieved " ++ toString n ++ " images"

/-- The `/images` handler after the recording has been located
(Scripts/horus_bridge_server.py:1111-1251): select the first `count` frames in
index order; when none are selected answer `Success: true` with empty data;
otherwise process each frame, skipping per-frame failures, and answer
`Success: true` with the processed images and a count message. -/
def getImagesWindowed (fetch : Nat → Frame → Option ImageResult)
    (frames : List Frame) (count : Nat) : ImagesResponse :=
  let sel := selectWindow frames count
  if sel.length = 0 then ImagesResponse.success [] msgNoFrames
  else ImagesResponse.success (processFrames fetch sel)
    (retrievedMsg (processFrames fetch sel).length)

/-- Five demo frames for the C5 scenario. -/
def demoFrames : List Frame :=
  [⟨0, some 0⟩, ⟨1, some 1⟩, ⟨2, some 2⟩, ⟨3, some 3⟩, ⟨4, some 4⟩]

/-- A fetch oracle whose SDK call fails exactly on the third frame
(loop position 2). -/
def demoFetch (i : Nat) (f : Frame) : Option ImageResult :=
  if i = 2 then none
  else some { idx := i, data := "imagedata", format := "image/jpeg", timestamp := f.timestamp }

/-- The four image results produced in the C5 scenario. -/
def demoResults : List ImageResult :=
  [ { idx := 0, data := "imagedata", format := "image/jpeg", timestamp := some 0 },
    { idx := 1, data := "imagedata", format := "image/jpeg", timestamp := some 1 },
    { idx := 3, data := "imagedata", format := "image/jpeg", timestamp := some 3 },
    { idx := 4, data := "imagedata", format := "image/jpeg", timestamp := some 4 } ]

/-- A recording row of the catalog: id and the path-like `directory` field. -/
structure Recording where
  rid : Nat
  directory : String
deriving Repr, DecidableEq

/-- The backslash character, the path separator used throughout the repo. -/
def sepChar : Char := Char.ofNat 92

/-- Character-level split on a separator, mirroring Python `s.split(sep)` for
a single-character separator: the result is the list of (possibly empty)
chunks between occurrences of `sep`, never itself empty. -/
def splitChunks (sep : Char) : List Char → List Char → List (List Char)
  | [], cur => [cur.reverse]
  | c :: cs, cur =>
    if c = sep then cur.reverse :: splitChunks sep cs []
    else splitChunks sep cs (c :: cur)

/-- `recording_endpoint.split('\\')[-1]`
(Scripts/horus_bridge_server.py:1022). -/
def lastSegment (s : String) : String :=
  String.mk ((splitChunks sepChar s.toList []).getLastD [])

/-- Character-level doubling of every separator occurrence, mirroring
`recording_endpoint.replace('\\', '\\\\')`
(Scripts/horus_bridge_server.py:1035). -/
def doubleSepChars (sep : Char) : List Char → List Char
  | [] => []
  | c :: cs =>
    if c = sep then c :: c :: doubleSepChars sep cs
    else c :: doubleSepChars sep cs

/-- `recording_endpoint.replace('\\', '\\\\')`. -/
def doubleSeparators (s : String) : String :=
  String.mk (doubleSepChars sepChar s.toList)

/-- Python `s.lower()`, modelled per character (ASCII range, which covers the
directory strings the servers handle). -/
def lowerStr (s : String) : String :=
  String.mk (s.toList.map Char.toLower)

/-- `next(Recording.query(recordings, directory_like=pat), None)`: the first
store row whose directory the external ORM matches against the pattern.  The
ORM's `directory_like` matching semantics is external (horus_db), so it is
passed in as the oracle `likeMatch`. -/
def queryLike (likeMatch : String → String → Bool) (store : List Recording)
    (pat : String) : Option Recording :=
  store.find? (fun r => likeMatch pat r.directory)

/-- Python substring test `need in hay`
(Scripts/horus_bridge_server.py:1057). -/
def strContains (hay need : String) : Bool :=
  decide (need.toList <:+: hay.toList)

/-- Strategy 4 body: take the first recording whose directory is set and whose
lower-cased final segment contains, or is contained in, the lower-cased final
segment of the search key. -/
def fuzzyMatch (store : List Recording) (key : String) : Option Recording :=
  let target := lowerStr (lastSegment key)
  store.find? (fun r =>
    (r.directory != "") &&
      (strContains (lowerStr (lastSegment r.directory)) target ||
       strContains target (lowerStr (lastSegment r.directory))))

/-- The recording locator of the `/images` handler
(Scripts/horus_bridge_server.py:1004-1097): four strategies applied in order,
each only when every earlier one found nothing, together with the
`search_attempts` log (strategy label, success flag) returned to the caller in
the 404 diagnostics. -/
def findRecording (likeMatch : String → String → Bool) (store : List Recording)
    (key : String) : Option Recording × List (String × Bool) :=
  match queryLike likeMatch store key with
  | some r => (some r, [("full path", true)])
  | none =>
    match queryLike likeMatch store (lastSegment key) with
    | some r => (some r, [("full path", false), ("directory name", true)])
    | none =>
      match queryLike likeMatch store (doubleSeparators key) with
      | some r => (some r, [("full path", false), ("directory name", false),
          ("double backslashes", true)])
      | none =>
        match fuzzyMatch store key with
        | some r => (some r, [("full path", false), ("directory name", false),
            ("double backslashes", false), ("partial match", true)])
        | none => (none, [("full path", false), ("directory name", false),
            ("double backslashes", false), ("partial match", false)])

/-- A single-quote character as a string (used by the "Quoted Format"
connection string). -/
def sq : String := String.singleton (Char.ofNat 39)

/-- One entry of the `connection_methods` list of
`DatabaseConnectionDiagnostics.try_connection_methods`
(Scripts/horus_bridge_server.py:106-127). -/
structure ConnMethod where
  name : String
  connStr : String
deriving Repr, DecidableEq

/-- The shared `key=value` core of the standard-format connection strings. -/
def stdConnStr (host port database user password : String) : String :=
  "host=" ++ host ++ " port=" ++ port ++ " dbname=" ++ database ++
    " user=" ++ user ++ " password=" ++ password

/-- The fixed ordered list of five connection-string syntaxes
(Scripts/horus_bridge_server.py:106-127). -/
def connectionMethods (host port database user password : String) : List ConnMethod :=
  [ { name := "Standard Format",
      connStr := stdConnStr host port database user password ++ " connect_timeout=15" },
    { name := "Quoted Format",
      connStr := "host=" ++ sq ++ host ++ sq ++ " port=" ++ sq ++ port ++ sq ++
        " dbname=" ++ sq ++ database ++ sq ++ " user=" ++ sq ++ user ++ sq ++
        " password=" ++ sq ++ password ++ sq ++ " connect_timeout=15" },
    { name := "URI Format",
      connStr := "postgresql://" ++ user ++ ":" ++ password ++ "@" ++ host ++ ":" ++
        port ++ "/" ++ database ++ "?connect_timeout=15" },
    { name := "SSL Disabled",
      connStr := stdConnStr host port database user password ++
        " sslmode=disable connect_timeout=15" },
    { name := "SSL Prefer",
      connStr := stdConnStr host port database user password ++
        " sslmode=prefer connect_timeout=15" } ]

/-- A psycopg2 connection handle: the string it was opened with and whether it
is currently open. -/
structure Conn where
  connStr : String
  isOpen : Bool
deriving Repr, DecidableEq

/-- `psycopg2.connect(conn_str)` on the success path. -/
def openConn (s : String) : Conn := { connStr := s, isOpen := true }

/-- `conn.close()`. -/
def closeConn (c : Conn) : Conn := { c with isOpen := false }

/-- `DatabaseConnectionDiagnostics.try_connection_methods`
(Scripts/horus_bridge_server.py:129-154): walk the method list in order; the
oracle tells whether `psycopg2.connect` plus the probe query succeed for a
connection string.  On the first success the code runs the probe, then
`conn.close()`, and returns `(conn, conn_str, name)`; on failure it moves to
the next method, never retrying; after the last failure it returns
`(None, None, None)`.  The second component records which method names were
attempted, in order. -/
def tryConnectionMethods (oracle : String → Bool) :
    List ConnMethod → Option (Conn × String × String) × List String
  | [] => (none, [])
  | m :: rest =>
    if oracle m.connStr then
      (some (closeConn (openConn m.connStr), m.connStr, m.name), [m.name])
    else
      let r := tryConnectionMethods oracle rest
      (r.1, m.name :: r.2)

/-- The concrete method list of the C4 scenario. -/
def demoMethods : List ConnMethod :=
  connectionMethods "10.0.10.100" "5432" "HorusWebMoviePlayer" "pocmsro" "pw"

/-- The Standard Format connection string of the C4 scenario. -/
def demoStdStr : String :=
  stdConnStr "10.0.10.100" "5432" "HorusWebMoviePlayer" "pocmsro" "pw" ++
    " connect_timeout=15"

/-- The polymorphic result of `spherical_image.get_image()` as the `/images`
handler distinguishes it (Scripts/horus_bridge_server.py:1152-1228):
an `io.BytesIO` buffer, a raw `bytes` value, a decoded PIL image (modelled by
the JPEG bytes its re-encoding produces; the encoder itself is external), or
any other object, characterized by its type name, whether it has a `getvalue`
method, and what that method returns (`none` = the call raises). -/
inductive ImageData where
  | buffered (bytes : List Nat)
  | raw (bytes : List Nat)
  | decoded (jpegBytes : List Nat)
  | other (typeName : String) (hasGetvalue : Bool) (getvalueResult : Option (List Nat))
deriving Repr, DecidableEq

/-- The logged error for a shape without a usable `getvalue`
(Scripts/horus_bridge_server.py:1227). -/
def msgUnknownType (ty : String) : String :=
  "Cannot process unknown image data type: " ++ ty

/-- Shape normalization performed by the `/images` handler before base64
encoding: `BytesIO → getvalue()`, `bytes → as-is`, PIL image → re-encode to
JPEG; any other object is probed for a `getvalue` method and used when that
call succeeds; otherwise the frame fails (and is skipped by the loop). -/
def normalizeImageData : ImageData → Except String (List Nat)
  | ImageData.buffered bs => Except.ok bs
  | ImageData.raw bs => Except.ok bs
  | ImageData.decoded bs => Except.ok bs
  | ImageData.other ty hasGv gv =>
    if hasGv then
      match gv with
      | some bs => Except.ok bs
      | none => Except.error ("getvalue failed")
    else Except.error (msgUnknownType ty)

/-- The database section of the bridge configuration.  All fields are strings;
the empty string models an absent/empty value (Python falsiness of
`self.db_config.get(field)`). -/
structure DbConfig where
  host : String
  port : String
  database : String
  user : String
  password : String
deriving Repr, DecidableEq

/-- `[field for field in ['host', 'database', 'user'] if not
self.db_config.get(field)]` (Scripts/horus_bridge_server.py:330-331). -/
def missingDbFields (cfg : DbConfig) : List String :=
  (([("host", cfg.host), ("database", cfg.database), ("user", cfg.user)] :
      List (String × String)).filter (fun p => p.2 == "")).map Prod.fst

/-- The `db_params` list of `connect_database`
(Scripts/horus_bridge_server.py:338-344).  The Python filter drops only
`None` values; strings (empty ones included) always pass, so the model keeps
every entry. -/
def dbParams (cfg : DbConfig) : List (String × String) :=
  [("host", cfg.host), ("port", cfg.port), ("dbname", cfg.database),
   ("user", cfg.user), ("password", cfg.password)]

/-- `" ".join(map("=".join, ...))` over `db_params`
(Scripts/horus_bridge_server.py:345). -/
def buildConnStr (cfg : DbConfig) : String :=
  String.intercalate (" ") ((dbParams cfg).map (fun p => p.1 ++ "=" ++ p.2))

/-- The exception classes distinguished by `connect_database`
(Scripts/horus_bridge_server.py:362-378): `psycopg2.OperationalError`,
`psycopg2.Error`, and any other exception. -/
inductive ConnectFailure where
  | operationalError
  | databaseError
  | otherError
deriving Repr, DecidableEq

/-- Result of one call to `HorusMediaBridge.connect_database`: either the
field validation raised `ValueError` before any connection attempt, or
`psycopg2.connect` plus the probe query were attempted on the built string
with the given outcome (`none` = success). -/
inductive ConnectResult where
  | validationError (missing : List String)
  | attempted (connStr : String) (outcome : Option ConnectFailure)
deriving Repr, DecidableEq

/-- `HorusMediaBridge.connect_database` (Scripts/horus_bridge_server.py:324-378)
as called by the `/connect` endpoint (no config-merge argument): validate
`host`/`database`/`user`, then attempt the connection, with the external
psycopg2 behavior given by `oracle`. -/
def connectDatabase (oracle : String → Option ConnectFailure) (cfg : DbConfig) :
    ConnectResult :=
  if missingDbFields cfg = [] then
    ConnectResult.attempted (buildConnStr cfg) (oracle (buildConnStr cfg))
  else ConnectResult.validationError (missingDbFields cfg)

/-- The process-wide mutable state of the bridge
(`HorusMediaBridge.__init__`, Scripts/horus_bridge_server.py:156-177):
the Horus client flag, the held database connection (its connection string
when open, `none` otherwise), the last successful connection method, the
database config and the Horus URL. -/
structure BridgeState where
  isConnected : Bool
  dbConnection : Option String
  connectionMethod : Option String
  dbConfig : DbConfig
  horusUrl : String
deriving Repr, DecidableEq

/-- The `config` block of the `/health` payload
(Scripts/horus_bridge_server.py:514-523): plain config fields plus
`db_password_set: bool(password)` — the password value itself is absent. -/
structure HealthConfigView where
  dbHost : String
  dbPort : String
  dbDatabase : String
  dbUser : String
  dbPasswordSet : Bool
  horusUrl : String
deriving Repr, DecidableEq

/-- The `/health` payload (Scripts/horus_bridge_server.py:501-524), without
the wall-clock timestamp and interpreter-version fields. -/
structure HealthPayload where
  status : String
  horusConnected : Bool
  databaseConnected : Bool
  connectionMethod : Option String
  config : HealthConfigView
deriving Repr, DecidableEq

/-- The `/health` handler. -/
def healthCheck (st : BridgeState) : HealthPayload :=
  { status := "running"
    horusConnected := st.isConnected
    databaseConnected := st.dbConnection.isSome
    connectionMethod := st.connectionMethod
    config :=
      { dbHost := st.dbConfig.host
        dbPort := st.dbConfig.port
        dbDatabase := st.dbConfig.database
        dbUser := st.dbConfig.user
        dbPasswordSet := st.dbConfig.password != ""
        horusUrl := st.horusUrl } }

/-- Python `s[:n]`: the first `n` characters of a string. -/
def takeFirst (s : String) (n : Nat) : String :=
  String.mk (s.toList.take n)

/-- Python `s[-n:]` (for `n > 0`): the last `n` characters of a string. -/
def takeLast (s : String) (n : Nat) : String :=
  String.mk (s.toList.drop (s.toList.length - n))

/-- `f"{received_password[:2]}***{received_password[-2:]}"`
(Scripts/horus_bridge_server.py:610). -/
def passwordSample (pw : String) : String :=
  takeFirst pw 2 ++ "***" ++ takeLast pw 2

/-- The `debug_info` of the `/connect` failure response when the received
password does not work (Scripts/horus_bridge_server.py:604-614), restricted
to the password-derived fields. -/
structure PasswordFailureDebug where
  passwordLength : Nat
  sample : String
deriving Repr, DecidableEq

/-- Assembly of that failure diagnostic from the received password. -/
def connectPasswordFailureDebug (pw : String) : PasswordFailureDebug :=
  { passwordLength := pw.length, sample := passwordSample pw }

/-- One entry of the `/recordings` response
(Scripts/horus_bridge_server.py:470-476). -/
structure RecordingInfo where
  recId : String
  endpoint : String
  name : String
  description : String
deriving Repr, DecidableEq

/-- `directory.split('\\')[-1] if directory else f"Recording {id}"`
(Scripts/horus_bridge_server.py:467). -/
def recordingName (directory : String) (rid : Nat) : String :=
  if directory = "" then "Recording " ++ toString rid else lastSegment directory

/-- `f"Recording from {directory}" if directory else f"Recording ID {id}"`
(Scripts/horus_bridge_server.py:468). -/
def recordingDescription (directory : String) (rid : Nat) : String :=
  if directory = "" then "Recording ID " ++ toString rid
  else "Recording from " ++ directory

/-- The per-row projection of `get_recordings`. -/
def recordingInfoOf (r : Recording) : RecordingInfo :=
  { recId := toString r.rid
    endpoint := r.directory
    name := recordingName r.directory r.rid
    description := recordingDescription r.directory r.rid }

/-- `HorusMediaBridge.get_recordings` (Scripts/horus_bridge_server.py:432-494,
same shape in Scrpts/horus_bridge_server.py:136-163): with no database
connection it logs a warning and returns the empty list; otherwise it maps the
catalog rows to response entries. -/
def getRecordings (store : List Recording) (st : BridgeState) : List RecordingInfo :=
  match st.dbConnection with
  | none => []
  | some _ => store.map recordingInfoOf

/-- The JSON envelope of the `/recordings` endpoint. -/
inductive RecordingsResponse where
  | success (data : List RecordingInfo) (message : String)
  | failure (error : String)
deriving Repr, DecidableEq

/-- The `/recordings` handler (Scripts/horus_bridge_server.py:958-974): wraps
`get_recordings` in a `Success: true` envelope; the 500 branch is reachable
only if `get_recordings` raises, which it never does (it catches internally). -/
def recordingsEndpoint (store : List Recording) (st : BridgeState) : RecordingsResponse :=
  RecordingsResponse.success (getRecordings store st) ("Retrieved recordings successfully")

/-- `connect_database` as a transition on the bridge state
(Scripts/horus_bridge_server.py:324-378): on success the connection handle and
method label are stored and `True` returned; on `ValueError` from validation,
on `psycopg2.OperationalError`, on `psycopg2.Error`, and on any other
exception, `self.db_connection = None` is executed and `False` returned. -/
def connectDatabaseState (oracle : String → Option ConnectFailure) (st : BridgeState) :
    BridgeState × Bool :=
  match connectDatabase oracle st.dbConfig with
  | ConnectResult.validationError _ => ({ st with dbConnection := none }, false)
  | ConnectResult.attempted cs none =>
      ({ st with
          dbConnection := some cs
          connectionMethod := some ("Standard Format (Dynamic)") }, true)
  | ConnectResult.attempted _ (some _) => ({ st with dbConnection := none }, false)

/-- A concrete bridge state holding a stale connection, for the C10 witness. -/
def demoState : BridgeState :=
  { isConnected := true
    dbConnection := some ("old")
    connectionMethod := some ("Standard Format (Dynamic)")
    dbConfig := { host := "h", port := "5432", database := "d", user := "u", password := "p" }
    horusUrl := "http://10.0.10.100:5050/web/" }

theorem selectNearestAux_spec (target : Int) :
    ∀ (fs : List Frame) (acc : Option (Nat × Frame)) (d : Nat) (f : Frame),
      selectNearestAux target fs acc = some (d, f) →
      ((acc = some (d, f) ∧ ∀ g ∈ fs, ∀ d', frameDiff target g = some d' → d ≤ d')
       ∨ (frameDiff target f = some d ∧
          (∀ dm fm, acc = some (dm, fm) → d < dm) ∧
          ∃ pre post, fs = pre ++ f :: post ∧
            (∀ g ∈ pre, ∀ d', frameDiff target g = some d' → d < d') ∧
            (∀ g ∈ post, ∀ d', frameDiff target g = some d' → d ≤ d'))) := by
  intro fs
  induction fs with
  | nil =>
    intro acc d f h
    simp only [selectNearestAux] at h
    exact Or.inl ⟨h, by simp⟩
  | cons x rest ih =>
    intro acc d f h
    simp only [selectNearestAux] at h
    cases hx : x.timestamp with
    | none =>
      rw [hx] at h
      rcases ih acc d f h with ⟨hacc, hmin⟩ | ⟨hdf, hlt, pre, post, hsplit, hpre, hpost⟩
      · refine Or.inl ⟨hacc, ?_⟩
        intro g hg d' hd'
        rcases List.mem_cons.mp hg with rfl | hg'
        · simp [frameDiff, hx] at hd'
        · exact hmin g hg' d' hd'
      · refine Or.inr ⟨hdf, hlt, x :: pre, post, by rw [hsplit]; rfl, ?_, hpost⟩
        intro g hg d' hd'
        rcases List.mem_cons.mp hg with rfl | hg'
        · simp [frameDiff, hx] at hd'
        · exact hpre g hg' d' hd'
    | some ts =>
      rw [hx] at h
      simp only [] at h
      have hxdiff : frameDiff target x = some ((ts - target).natAbs) := by
        simp [frameDiff, hx]
      cases hacc : acc with
      | none =>
        rw [hacc] at h
        rcases ih (some ((ts - target).natAbs, x)) d f h with
          ⟨heq, hmin⟩ | ⟨hdf, hlt, pre, post, hsplit, hpre, hpost⟩
        · have hd : (ts - target).natAbs = d ∧ x = f := by
            have := heq
            simp at this
            exact ⟨this.1, this.2⟩
          refine Or.inr ⟨by rw [← hd.2, hxdiff, hd.1], by simp [hacc], [], rest,
            by rw [hd.2]; rfl, by simp, ?_⟩
          intro g hg d' hd'
          exact hmin g hg d' hd'
        · have hlt' : d < (ts - target).natAbs := hlt _ _ rfl
          refine Or.inr ⟨hdf, by simp [hacc], x :: pre, post, by rw [hsplit]; rfl, ?_, hpost⟩
          intro g hg d' hd'
          rcases List.mem_cons.mp hg with rfl | hg'
          · rw [hxdiff] at hd'
            injection hd' with hd''
            rw [← hd'']
            exact hlt'
          · exact hpre g hg' d' hd'
      | some p =>
        obtain ⟨dm, fm⟩ := p
        rw [hacc] at h
        dsimp only at h
        by_cases hcmp : (ts - target).natAbs < dm
        · rw [if_pos hcmp] at h
          rcases ih (some ((ts - target).natAbs, x)) d f h with
            ⟨heq, hmin⟩ | ⟨hdf, hlt, pre, post, hsplit, hpre, hpost⟩
          · have hd : (ts - target).natAbs = d ∧ x = f := by
              have := heq
              simp at this
              exact ⟨this.1, this.2⟩
            refine Or.inr ⟨by rw [← hd.2, hxdiff, hd.1], ?_, [], rest,
              by rw [hd.2]; rfl, by simp, ?_⟩
            · intro dm' fm' hacc'
              injection hacc' with h1
              injection h1 with h2 h3
              rw [← h2, ← hd.1]
              exact hcmp
            · intro g hg d' hd'
              exact hmin g hg d' hd'
          · have hlt' : d < (ts - target).natAbs := hlt _ _ rfl
            refine Or.inr ⟨hdf, ?_, x :: pre, post, by rw [hsplit]; rfl, ?_, hpost⟩
            · intro dm' fm' hacc'
              injection hacc' with h1
              injection h1 with h2 h3
              rw [← h2]
              exact lt_trans hlt' hcmp
            · intro g hg d' hd'
              rcases List.mem_cons.mp hg with rfl | hg'
              · rw [hxdiff] at hd'
                injection hd' with hd''
                rw [← hd'']
                exact hlt'
              · exact hpre g hg' d' hd'
        · rw [if_neg hcmp] at h
          have hge : dm ≤ (ts - target).natAbs := Nat.le_of_not_lt hcmp
          rcases ih (some (dm, fm)) d f h with
            ⟨heq, hmin⟩ | ⟨hdf, hlt, pre, post, hsplit, hpre, hpost⟩
          · have hd : dm = d ∧ fm = f := by
              have := heq
              simp at this
              exact ⟨this.1, this.2⟩
            refine Or.inl ⟨by rw [hd.1, hd.2], ?_⟩
            intro g hg d' hd'
            rcases List.mem_cons.mp hg with rfl | hg'
            · rw [hxdiff] at hd'
              injection hd' with hd''
              rw [← hd'', ← hd.1]
              exact hge
            · exact hmin g hg' d' hd'
          · have hlt' : d < dm := hlt _ _ rfl
            refine Or.inr ⟨hdf, ?_, x :: pre, post, by rw [hsplit]; rfl, ?_, hpost⟩
            · intro dm' fm' hacc'
              injection hacc' with h1
              injection h1 with h2 h3
              rw [← h2]
              exact hlt'
            · intro g hg d' hd'
              rcases List.mem_cons.mp hg with rfl | hg'
              · rw [hxdiff] at hd'
                injection hd' with hd''
                rw [← hd'']
                exact lt_of_lt_of_le hlt' hge
              · exact hpre g hg' d' hd'

theorem selectNearestAux_none (target : Int) :
    ∀ (fs : List Frame) (acc : Option (Nat × Frame)),
      selectNearestAux target fs acc = none →
      acc = none ∧ ∀ g ∈ fs, g.timestamp = none := by
  intro fs
  induction fs with
  | nil =>
    intro acc h
    simp only [selectNearestAux] at h
    exact ⟨h, by simp⟩
  | cons x rest ih =>
    intro acc h
    simp only [selectNearestAux] at h
    cases hx : x.timestamp with
    | none =>
      rw [hx] at h
      obtain ⟨hacc, hall⟩ := ih acc h
      refine ⟨hacc, ?_⟩
      intro g hg
      rcases List.mem_cons.mp hg with rfl | hg'
      · exact hx
      · exact hall g hg'
    | some ts =>
      rw [hx] at h
      simp only [] at h
      cases hacc : acc with
      | none =>
        rw [hacc] at h
        obtain ⟨habs, _⟩ := ih _ h
        exact absurd habs (by simp)
      | some p =>
        obtain ⟨dm, fm⟩ := p
        rw [hacc] at h
        dsimp only at h
        by_cases hcmp : (ts - target).natAbs < dm
        · rw [if_pos hcmp] at h
          obtain ⟨habs, _⟩ := ih _ h
          exact absurd habs (by simp)
        · rw [if_neg hcmp] at h
          obtain ⟨habs, _⟩ := ih _ h
          exact absurd habs (by simp)

theorem processFrames_core (fetch : Nat → Frame → Option ImageResult) :
    ∀ l : List (Nat × Frame),
      (l.filterMap (fun p => fetch p.1 p.2)).length =
        l.countP (fun p => (fetch p.1 p.2).isSome) := by
  intro l
  induction l with
  | nil => rfl
  | cons a l ih =>
    cases hfa : fetch a.1 a.2 with
    | none => simp [List.filterMap_cons, List.countP_cons, hfa, ih]
    | some v => simp [List.filterMap_cons, List.countP_cons, hfa, ih]

theorem missingDbFields_eq (cfg : DbConfig) :
    missingDbFields cfg =
      (if cfg.host = "" then ["host"] else []) ++
        (if cfg.database = "" then ["database"] else []) ++
        (if cfg.user = "" then ["user"] else []) := by
  by_cases h1 : cfg.host = "" <;> by_cases h2 : cfg.database = "" <;>
    by_cases h3 : cfg.user = "" <;>
      simp [missingDbFields, List.filter, beq_eq_decide, h1, h2, h3]

/-- Claim C1: nearest-timestamp selection scans the frames in scan (timestamp)
order, skips every frame whose timestamp is unset, and returns a frame of
minimal absolute difference to the target, ties resolved to the candidate
encountered first; it returns nothing only when no frame has a timestamp; and
with frames at timestamps `[T, T+10, T+30]` and target `T+12` it returns the
`T+10` frame. -/
theorem nearest_timestamp_selection :
    (∀ (target : Int) (frames : List Frame) (f : Frame),
        selectNearest target frames = some f →
          ∃ d, NearestFirst target frames f d) ∧
    (∀ (target : Int) (frames : List Frame),
        selectNearest target frames = none → ∀ g ∈ frames, g.timestamp = none) ∧
    (∀ t : Int,
        selectNearest (t + 12)
          [⟨0, some t⟩, ⟨1, some (t + 10)⟩, ⟨2, some (t + 30)⟩] =
          some ⟨1, some (t + 10)⟩) := by
  refine ⟨?_, ?_, ?_⟩
  · intro target frames f h
    unfold selectNearest at h
    rcases Option.map_eq_some'.mp h with ⟨⟨d, f'⟩, haux, hsnd⟩
    simp only [] at hsnd
    subst hsnd
    rcases selectNearestAux_spec target frames none d f' haux with
      ⟨habs, _⟩ | ⟨hdf, _, pre, post, hsplit, hpre, hpost⟩
    · exact absurd habs (by simp)
    · refine ⟨d, hdf, ?_, pre, post, hsplit, hpre⟩
      intro g hg d' hd'
      rw [hsplit] at hg
      rcases List.mem_append.mp hg with hg' | hg'
      · exact Nat.le_of_lt (hpre g hg' d' hd')
      · rcases List.mem_cons.mp hg' with rfl | hg''
        · rw [hdf] at hd'
          injection hd' with hdd
          rw [hdd]
        · exact hpost g hg'' d' hd'
  · intro target frames h
    unfold selectNearest at h
    have haux : selectNearestAux target frames none = none := by
      cases hres : selectNearestAux target frames none with
      | none => rfl
      | some p => rw [hres] at h; simp at h
    exact (selectNearestAux_none target frames none haux).2
  · intro t
    have e0 : t - (t + 12) = -12 := by ring
    have e1 : t + 10 - (t + 12) = -2 := by ring
    have e2 : t + 30 - (t + 12) = 18 := by ring
    simp [selectNearest, selectNearestAux, e0, e1, e2]

/-- Witness for C1 at a concrete input. -/
theorem nearest_timestamp_selection_witness :
    ∃ d, NearestFirst 12 [⟨0, some 0⟩, ⟨1, some 10⟩, ⟨2, some 30⟩] ⟨1, some 10⟩ d :=
  nearest_timestamp_selection.1 12 [⟨0, some 0⟩, ⟨1, some 10⟩, ⟨2, some 30⟩]
    ⟨1, some 10⟩ (by decide)

/-- Claim C2: windowed selection returns at most `count` frames; `count = 0`
yields the empty selection and a successful (not error) response; an empty
recording yields a successful empty response; index order (any sorted order of
the query result) is preserved by the truncation. -/
theorem windowed_selection :
    (∀ (frames : List Frame) (count : Nat),
        (selectWindow frames count).length ≤ count) ∧
    (∀ frames : List Frame, selectWindow frames 0 = []) ∧
    (∀ (frames : List Frame) (count : Nat),
        List.Pairwise (fun a b => a.idx ≤ b.idx) frames →
        List.Pairwise (fun a b => a.idx ≤ b.idx) (selectWindow frames count)) ∧
    (∀ (fetch : Nat → Frame → Option ImageResult) (frames : List Frame),
        getImagesWindowed fetch frames 0 = ImagesResponse.success [] msgNoFrames) ∧
    (∀ (fetch : Nat → Frame → Option ImageResult) (count : Nat),
        getImagesWindowed fetch [] count = ImagesResponse.success [] msgNoFrames) := by
  refine ⟨?_, ?_, ?_, ?_, ?_⟩
  · intro frames count
    simp [selectWindow, List.length_take]
  · intro frames
    simp [selectWindow]
  · intro frames count h
    exact List.Pairwise.sublist (List.take_sublist count frames) h
  · intro fetch frames
    simp [getImagesWindowed, selectWindow]
  · intro fetch count
    simp [getImagesWindowed, selectWindow]

/-- Witness for C2 at a concrete input (the index-order preservation part has
a sortedness hypothesis). -/
theorem windowed_selection_witness :
    List.Pairwise (fun a b => a.idx ≤ b.idx)
      (selectWindow [⟨0, some 0⟩, ⟨1, some 5⟩, ⟨2, some 3⟩] 2) :=
  windowed_selection.2.2.1 [⟨0, some 0⟩, ⟨1, some 5⟩, ⟨2, some 3⟩] 2 (by decide)

/-- Claim C5: the batch image request always answers success (per-frame
failures only skip that frame), the number of produced results equals the
number of frames whose processing succeeded, and requesting 5 images with the
SDK failing on frame 3 yields a successful response reporting 4 images. -/
theorem partial_frame_failure :
    (∀ (fetch : Nat → Frame → Option ImageResult) (frames : List Frame) (count : Nat),
        ∃ data msg, getImagesWindowed fetch frames count = ImagesResponse.success data msg) ∧
    (∀ (fetch : Nat → Frame → Option ImageResult) (frames : List Frame),
        (processFrames fetch frames).length =
          frames.enum.countP (fun p => (fetch p.1 p.2).isSome)) ∧
    (getImagesWindowed demoFetch demoFrames 5 =
        ImagesResponse.success demoResults (retrievedMsg 4)) := by
  refine ⟨?_, ?_, ?_⟩
  · intro fetch frames count
    unfold getImagesWindowed
    by_cases h : (selectWindow frames count).length = 0
    · exact ⟨[], msgNoFrames, by simp [h]⟩
    · exact ⟨processFrames fetch (selectWindow frames count),
        retrievedMsg (processFrames fetch (selectWindow frames count)).length, by simp [h]⟩
  · intro fetch frames
    exact processFrames_core fetch frames.enum
  · rfl

/-- Claim C3: the recording locator applies its four strategies in a fixed
order — full search key, final path segment, doubled separators, then
case-insensitive substring match in either direction over all recordings —
stopping at the first strategy with a match, and when none matches it reports
no recording together with the ordered list of the attempted strategies. -/
theorem recording_locator_order (likeMatch : String → String → Bool)
    (store : List Recording) (key : String) :
    (∀ r, queryLike likeMatch store key = some r →
        findRecording likeMatch store key = (some r, [("full path", true)])) ∧
    (queryLike likeMatch store key = none →
      ∀ r, queryLike likeMatch store (lastSegment key) = some r →
        findRecording likeMatch store key =
          (some r, [("full path", false), ("directory name", true)])) ∧
    (queryLike likeMatch store key = none →
      queryLike likeMatch store (lastSegment key) = none →
      ∀ r, queryLike likeMatch store (doubleSeparators key) = some r →
        findRecording likeMatch store key =
          (some r, [("full path", false), ("directory name", false),
            ("double backslashes", true)])) ∧
    (queryLike likeMatch store key = none →
      queryLike likeMatch store (lastSegment key) = none →
      queryLike likeMatch store (doubleSeparators key) = none →
      ∀ r, fuzzyMatch store key = some r →
        findRecording likeMatch store key =
          (some r, [("full path", false), ("directory name", false),
            ("double backslashes", false), ("partial match", true)])) ∧
    (queryLike likeMatch store key = none →
      queryLike likeMatch store (lastSegment key) = none →
      queryLike likeMatch store (doubleSeparators key) = none →
      fuzzyMatch store key = none →
        findRecording likeMatch store key =
          (none, [("full path", false), ("directory name", false),
            ("double backslashes", false), ("partial match", false)])) := by
  refine ⟨?_, ?_, ?_, ?_, ?_⟩
  · intro r h1
    simp [findRecording, h1]
  · intro h1 r h2
    simp [findRecording, h1, h2]
  · intro h1 h2 r h3
    simp [findRecording, h1, h2, h3]
  · intro h1 h2 h3 r h4
    simp [findRecording, h1, h2, h3, h4]
  · intro h1 h2 h3 h4
    simp [findRecording, h1, h2, h3, h4]

/-- Witness for C3 at a concrete input: a store where only the fuzzy strategy
matches (the ORM oracle is plain string equality). -/
theorem recording_locator_order_witness :
    findRecording (fun a b => a == b) [{ rid := 7, directory := "X\\LADYBUG5PLUS" }]
        "Rotterdam360\\Ladybug5plus" =
      (some { rid := 7, directory := "X\\LADYBUG5PLUS" },
        [("full path", false), ("directory name", false),
          ("double backslashes", false), ("partial match", true)]) :=
  (recording_locator_order (fun a b => a == b)
      [{ rid := 7, directory := "X\\LADYBUG5PLUS" }] "Rotterdam360\\Ladybug5plus").2.2.2.1
    (by decide) (by decide) (by decide) _ (by decide)

/-- Claim C4 (code bug evaluation): the connection resolver walks the five
syntax variants in order, stops at the first success, never retries a failed
variant, and returns no connection when all fail — but the connection it
returns on success has been closed (`conn.close()` runs before `return conn`),
not a live one; the `/test-db` caller then invokes `cursor()` on that closed
handle.  First conjunct: with a database accepting exactly the Standard
Format string, the returned handle has `isOpen = false`.  Remaining
conjuncts: all-fail yields no connection after attempting each variant once,
in order, and a first-variant failure moves to the second variant. -/
theorem connection_resolver_returns_closed_handle :
    (tryConnectionMethods (fun s => s == demoStdStr) demoMethods =
      (some ({ connStr := demoStdStr, isOpen := false }, demoStdStr, "Standard Format"),
        ["Standard Format"])) ∧
    (tryConnectionMethods (fun _ => false) demoMethods =
      (none, ["Standard Format", "Quoted Format", "URI Format",
        "SSL Disabled", "SSL Prefer"])) ∧
    (tryConnectionMethods
        (fun s => s == (demoMethods.map ConnMethod.connStr).getD 1 ("")) demoMethods).2 =
      ["Standard Format", "Quoted Format"] := by
  refine ⟨by decide, by decide, by decide⟩

/-- Counterexample to claim C6 as stated: a fourth, unrecognized shape that
happens to expose a working `getvalue` method is normalized successfully
instead of producing a fetch error naming its type. -/
theorem unknown_shape_with_getvalue_not_error :
    normalizeImageData (ImageData.other ("StringIO") true (some [1, 2, 3])) =
      Except.ok [1, 2, 3] := rfl

/-- Claim C6 as amended: the three recognized shapes (byte buffer, raw bytes,
decoded image re-encoded as JPEG) are each normalized to their byte sequence;
an unrecognized shape is first probed for a `getvalue` method and normalized
through it when the call succeeds; only a shape without `getvalue` yields the
error naming the encountered type, and a failing `getvalue` yields an error
as well (the frame is skipped either way). -/
theorem normalize_shapes :
    (∀ bs, normalizeImageData (ImageData.buffered bs) = Except.ok bs) ∧
    (∀ bs, normalizeImageData (ImageData.raw bs) = Except.ok bs) ∧
    (∀ bs, normalizeImageData (ImageData.decoded bs) = Except.ok bs) ∧
    (∀ ty bs, normalizeImageData (ImageData.other ty true (some bs)) = Except.ok bs) ∧
    (∀ ty gv, normalizeImageData (ImageData.other ty false gv) =
        Except.error (msgUnknownType ty)) ∧
    (∀ ty, normalizeImageData (ImageData.other ty true none) =
        Except.error ("getvalue failed")) := by
  refine ⟨fun bs => rfl, fun bs => rfl, fun bs => rfl, fun ty bs => rfl,
    fun ty gv => rfl, fun ty => rfl⟩

/-- Counterexample to claim C7 as stated: a config whose `port` (a field
besides the password) is empty passes validation — the code checks only
`host`, `database` and `user` — and a connection attempt is made with the
malformed string `"... port= ..."` instead of failing with a validation
error. -/
theorem empty_port_not_validated :
    connectDatabase (fun _ => some ConnectFailure.operationalError)
        { host := "h", port := "", database := "d", user := "u", password := "p" } =
      ConnectResult.attempted ("host=h port= dbname=d user=u password=p")
        (some ConnectFailure.operationalError) := by decide

/-- Claim C7 as amended: when any of `host`, `database`, `user` is empty or
absent, the connect fails immediately with a validation error naming exactly
the absent fields among those three, and no connection is attempted (the
result does not depend on the database oracle); `port` and `password` are not
validated. -/
theorem missing_core_field_validation (oracle : String → Option ConnectFailure)
    (cfg : DbConfig) (h : cfg.host = "" ∨ cfg.database = "" ∨ cfg.user = "") :
    connectDatabase oracle cfg = ConnectResult.validationError (missingDbFields cfg) ∧
    (∀ oracle', connectDatabase oracle cfg = connectDatabase oracle' cfg) ∧
    (cfg.host = "" ↔ "host" ∈ missingDbFields cfg) ∧
    (cfg.database = "" ↔ "database" ∈ missingDbFields cfg) ∧
    (cfg.user = "" ↔ "user" ∈ missingDbFields cfg) := by
  have hne : missingDbFields cfg ≠ [] := by
    rw [missingDbFields_eq]
    rcases h with h | h | h <;> simp [h]
  refine ⟨by simp [connectDatabase, hne], fun oracle' => by simp [connectDatabase, hne],
    ?_, ?_, ?_⟩ <;>
      rw [missingDbFields_eq] <;>
        by_cases h1 : cfg.host = "" <;> by_cases h2 : cfg.database = "" <;>
          by_cases h3 : cfg.user = "" <;> simp [h1, h2, h3]

/-- Witness for C7's amended theorem at a concrete input. -/
theorem missing_core_field_validation_witness :
    connectDatabase (fun _ => none)
        { host := "", port := "5432", database := "d", user := "u", password := "p" } =
      ConnectResult.validationError
        (missingDbFields
          { host := "", port := "5432", database := "d", user := "u", password := "p" }) :=
  (missing_core_field_validation (fun _ => none)
    { host := "", port := "5432", database := "d", user := "u", password := "p" }
    (Or.inl rfl)).1

/-- Counterexample to claim C8 as stated: the diagnostic payload of the
`/connect` failure branch (one of the claim's cited code locations) embeds the
first two and last two characters of the password; for the two-character
password "ab" the sample is "ab***ab", which contains the full password
value. -/
theorem password_sample_leaks_short_password :
    (connectPasswordFailureDebug ("ab")).sample = "ab***ab" ∧
    strContains ((connectPasswordFailureDebug ("ab")).sample) ("ab") = true := by
  refine ⟨by decide, by decide⟩

/-- Claim C8 as amended: the `/health` payload reports connection state and
config with the password fully redacted — any two states that agree on
everything except the password value and agree on whether it is set produce
identical health payloads, and only the boolean indicator is derived from the
password; the `/connect` password-failure debug payload, however, exposes the
first two and last two characters of the password. -/
theorem health_password_redaction :
    (∀ (st : BridgeState) (pw pw' : String),
        (pw != "") = (pw' != "") →
        healthCheck { st with dbConfig := { st.dbConfig with password := pw } } =
          healthCheck { st with dbConfig := { st.dbConfig with password := pw' } }) ∧
    (∀ st : BridgeState,
        (healthCheck st).databaseConnected = st.dbConnection.isSome ∧
        (healthCheck st).horusConnected = st.isConnected ∧
        (healthCheck st).config.dbPasswordSet = (st.dbConfig.password != "")) ∧
    (∀ pw : String, (connectPasswordFailureDebug pw).sample =
        takeFirst pw 2 ++ "***" ++ takeLast pw 2) := by
  refine ⟨?_, ?_, ?_⟩
  · intro st pw pw' h
    simp [healthCheck, h]
  · intro st
    exact ⟨rfl, rfl, rfl⟩
  · intro pw
    rfl

/-- Witness for C8's amended theorem at a concrete input. -/
theorem health_password_redaction_witness :
    healthCheck { demoState with dbConfig := { demoState.dbConfig with password := "secret1" } } =
      healthCheck { demoState with dbConfig := { demoState.dbConfig with password := "secret2" } } :=
  health_password_redaction.1 demoState "secret1" "secret2" (by decide)

/-- Claim C9: with no database connection held, listing recordings yields the
empty list and the `/recordings` endpoint answers success with empty data —
the missing connection is never surfaced as an error. -/
theorem no_connection_recordings_empty (store : List Recording) (st : BridgeState)
    (h : st.dbConnection = none) :
    getRecordings store st = [] ∧
    recordingsEndpoint store st =
      RecordingsResponse.success [] ("Retrieved recordings successfully") := by
  constructor
  · simp [getRecordings, h]
  · simp [recordingsEndpoint, getRecordings, h]

/-- Witness for C9 at a concrete input. -/
theorem no_connection_recordings_empty_witness :
    getRecordings [{ rid := 1, directory := "A\\B" }] { demoState with dbConnection := none } = [] :=
  (no_connection_recordings_empty [{ rid := 1, directory := "A\\B" }]
    { demoState with dbConnection := none } rfl).1

/-- Claim C10: after every failed database connect — validation error,
operational error, database error, or any other exception — the stored
connection handle is `None`, so the health payload reports
`database_connected = false`. -/
theorem failed_connect_resets_handle (oracle : String → Option ConnectFailure)
    (st : BridgeState) (h : (connectDatabaseState oracle st).2 = false) :
    (connectDatabaseState oracle st).1.dbConnection = none ∧
    (healthCheck (connectDatabaseState oracle st).1).databaseConnected = false := by
  cases hres : connectDatabase oracle st.dbConfig with
  | validationError m =>
    simp [connectDatabaseState, hres, healthCheck]
  | attempted cs outcome =>
    cases outcome with
    | none =>
      exfalso
      rw [connectDatabaseState, hres] at h
      simp at h
    | some fk =>
      simp [connectDatabaseState, hres, healthCheck]

/-- Witness for C10 at a concrete input: a failing connect resets the stale
handle held in `demoState`. -/
theorem failed_connect_resets_handle_witness :
    (connectDatabaseState (fun _ => some ConnectFailure.operationalError) demoState).1.dbConnection =
      none :=
  (failed_connect_resets_handle (fun _ => some ConnectFailure.operationalError) demoState
    (by decide)).1

end Horus
